import Mathlib

/-!
Verification development for the blog-api backend.

The definitions below are a shallow embedding of the backend's data model
(prisma/schema.prisma), its query layer (utils/query.js), its cache layer
(utils/cache.js and the revised cache module bundled with routes/router.js),
and the Express controllers (controllers/controller.js and the revised
controller). Machine state (database rows, cache entries) is passed
explicitly; each Prisma call is modelled as one atomic operation on the
database state, matching the single-process non-blocking I/O model in which
concurrent requests may interleave between any two `await`ed storage calls.
-/

set_option autoImplicit false
set_option linter.unusedVariables false

namespace BlogApi

/-! ### Data model (prisma/schema.prisma)

`Post` carries the scalar fields of the Prisma `Post` model that the verified
code paths read or write, plus `authorFirstName`, the denormalized projection
of the included `author` relation that `getPaginated` sorts on.
`LikeRow` is the `UserLikePost` model; its surrogate `id` (a uuid string in
the schema) is modelled as a `Nat` drawn from a freshness counter, and the
`(userId, postId)` pair carries the `@@unique` constraint. -/

structure Post where
  id : String
  title : String
  content : String
  published : Bool
  authorId : String
  authorFirstName : String
  tags : List String
  views : Int
  likes : Int
  createdAt : Int
  deriving DecidableEq, Repr

structure LikeRow where
  id : Nat
  userId : String
  postId : String
  deriving DecidableEq, Repr

/-- Database state. `nextRowId` models uuid generation for `UserLikePost.id`
(fresh ids never collide with live ones); `nextPostId` likewise for post ids
created by `post.create`. -/
structure DB where
  posts : List Post
  likeRows : List LikeRow
  nextRowId : Nat
  nextPostId : Nat
  deriving DecidableEq, Repr

/-- Prisma error outcomes distinguished by the controllers: `uniqueViolation`
is P2002 (unique constraint failed), `deleteNotFound` and `updateNotFound`
are the two P2025 flavours, whose messages differ ("Record to delete does not
exist" versus "Record to update not found" — the controllers test
`err.message.includes("Record to update not found")`). `invalidArg` is the
error Prisma raises for a negative `skip`/`take`. -/
inductive PErr
  | uniqueViolation
  | deleteNotFound
  | updateNotFound
  | invalidArg
  deriving DecidableEq, Repr

/-! ### Atomic Prisma operations used by toggleLike / incrementViews -/

/-- Models `prisma.userLikePost.findUnique` on the composite key `userId_postId`. -/
def findLike (db : DB) (userId postId : String) : Option LikeRow :=
  db.likeRows.find? (fun r => r.userId == userId && r.postId == postId)

/-- Models `prisma.userLikePost.create` for the pair. The database
enforces the `@@unique([userId, postId])` constraint: a row for the pair
already present makes the insert fail with P2002. -/
def createLike (db : DB) (userId postId : String) : Except PErr DB :=
  if (findLike db userId postId).isSome then Except.error PErr.uniqueViolation
  else Except.ok { db with
    likeRows := db.likeRows ++ [⟨db.nextRowId, userId, postId⟩],
    nextRowId := db.nextRowId + 1 }

/-- Models `prisma.userLikePost.delete` by row id; P2025 if the row is gone. -/
def deleteLikeById (db : DB) (rid : Nat) : Except PErr DB :=
  if db.likeRows.any (fun r => r.id == rid) then
    Except.ok { db with likeRows := db.likeRows.filter (fun r => r.id != rid) }
  else Except.error PErr.deleteNotFound

/-- Models `prisma.post.findUnique` by post id (scalar part). -/
def getPost (db : DB) (postId : String) : Option Post :=
  db.posts.find? (fun p => p.id == postId)

/-- Adjust the `likes` counter of the posts matching `postId` by `delta`. -/
def bumpLikes (posts : List Post) (postId : String) (delta : Int) : List Post :=
  posts.map (fun q => if q.id == postId then { q with likes := q.likes + delta } else q)

/-- Models `prisma.post.update` with a `likes` increment or decrement:
an atomic counter update returning the updated post,
P2025 ("Record to update not found") if the post does not exist. -/
def updatePostLikes (db : DB) (postId : String) (delta : Int) : Except PErr (Post × DB) :=
  match getPost db postId with
  | none => Except.error PErr.updateNotFound
  | some p => Except.ok ({ p with likes := p.likes + delta },
      { db with posts := bumpLikes db.posts postId delta })

/-- Models `prisma.post.update` with a `views` increment
(query.js `post.incrementViews`). -/
def incrementViews (db : DB) (postId : String) : Except PErr (Post × DB) :=
  match getPost db postId with
  | none => Except.error PErr.updateNotFound
  | some p => Except.ok ({ p with views := p.views + 1 },
      { db with posts :=
          db.posts.map (fun q => if q.id == postId then { q with views := q.views + 1 } else q) })

/-- Outcome of one `toggleLike` call: on success the returned
`updatedPost.likes` and the `liked` flag; on failure the re-thrown Prisma
error (query.js logs and re-throws in its `catch`). -/
inductive TRes
  | ok (likes : Int) (liked : Bool)
  | err (e : PErr)
  deriving DecidableEq, Repr

/-- query.js `post.toggleLike(postId, userId)` run without interference: the
existence check, then delete + decrement or create + increment. Errors from
any step are re-thrown; database effects of earlier steps persist (the three
Prisma calls are separate `await`s, not a transaction). -/
def toggleLike (db : DB) (postId userId : String) : TRes × DB :=
  match findLike db userId postId with
  | some existingLike =>
    match deleteLikeById db existingLike.id with
    | Except.error e => (TRes.err e, db)
    | Except.ok db1 =>
      match updatePostLikes db1 postId (-1) with
      | Except.error e => (TRes.err e, db1)
      | Except.ok (p, db2) => (TRes.ok p.likes false, db2)
  | none =>
    match createLike db userId postId with
    | Except.error e => (TRes.err e, db)
    | Except.ok db1 =>
      match updatePostLikes db1 postId 1 with
      | Except.error e => (TRes.err e, db1)
      | Except.ok (p, db2) => (TRes.ok p.likes true, db2)

/-! ### Interleaved execution of two concurrent toggleLike requests

Each constructor of `TPC` is a point between the `await`ed Prisma calls of
`toggleLike`; `stepThread` performs exactly one atomic storage operation, so
running two threads under an arbitrary schedule realizes the §5 concurrency
model ("between check and act, other requests for the same pair may
interleave"). -/

inductive TPC
  | atFind
  | atDelete (rowId : Nat)
  | atCreate
  | atUpdate (delta : Int) (liked : Bool)
  | done (r : TRes)
  deriving DecidableEq, Repr

structure Thread where
  postId : String
  userId : String
  pc : TPC
  deriving DecidableEq, Repr

def stepThread (db : DB) (t : Thread) : Thread × DB :=
  match t.pc with
  | TPC.atFind =>
    match findLike db t.userId t.postId with
    | some existingLike => ({ t with pc := TPC.atDelete existingLike.id }, db)
    | none => ({ t with pc := TPC.atCreate }, db)
  | TPC.atDelete rid =>
    match deleteLikeById db rid with
    | Except.error e => ({ t with pc := TPC.done (TRes.err e) }, db)
    | Except.ok db1 => ({ t with pc := TPC.atUpdate (-1) false }, db1)
  | TPC.atCreate =>
    match createLike db t.userId t.postId with
    | Except.error e => ({ t with pc := TPC.done (TRes.err e) }, db)
    | Except.ok db1 => ({ t with pc := TPC.atUpdate 1 true }, db1)
  | TPC.atUpdate delta liked =>
    match updatePostLikes db t.postId delta with
    | Except.error e => ({ t with pc := TPC.done (TRes.err e) }, db)
    | Except.ok (p, db1) => ({ t with pc := TPC.done (TRes.ok p.likes liked) }, db1)
  | TPC.done _ => (t, db)

structure TwoState where
  a : Thread
  b : Thread
  db : DB
  deriving DecidableEq, Repr

/-- One scheduling decision: `true` steps thread `a`, `false` steps `b`. -/
def step2 (s : TwoState) (pickA : Bool) : TwoState :=
  if pickA then
    let (t, db) := stepThread s.db s.a
    { s with a := t, db := db }
  else
    let (t, db) := stepThread s.db s.b
    { s with b := t, db := db }

def run2 : List Bool → TwoState → TwoState
  | [], s => s
  | c :: rest, s => run2 rest (step2 s c)

/-! ### ContentQueryEngine (query.js `post.getPaginated`, `post.getAll`,
`post.getAllPost`)

String helpers are written structurally over `List Char` so that the kernel
can evaluate them on concrete inputs; `jsSplit ':'` mirrors JavaScript's
`sort.split(":")` (an empty string splits to `[""]`, separators at the ends
produce empty fields). -/

def jsSplitAux (sep : Char) : List Char → List Char → List String
  | [], acc => [String.mk acc.reverse]
  | c :: t, acc =>
    if c == sep then String.mk acc.reverse :: jsSplitAux sep t []
    else jsSplitAux sep t (c :: acc)

def jsSplit (sep : Char) (s : String) : List String := jsSplitAux sep s.toList []

/-- Is `pre` a prefix of `l`? -/
def isPrefixChars : List Char → List Char → Bool
  | [], _ => true
  | _ :: _, [] => false
  | c :: cs, d :: ds => c == d && isPrefixChars cs ds

/-- Does `hay` contain `needle` as a contiguous substring? -/
def hasSubChars (needle : List Char) : List Char → Bool
  | [] => needle.isEmpty
  | c :: t => isPrefixChars needle (c :: t) || hasSubChars needle t

/-- Case-insensitive substring test: Prisma `contains` with
`mode: "insensitive"`. -/
def containsInsensitive (hay needle : String) : Bool :=
  hasSubChars needle.toLower.toList hay.toLower.toList

/-- The `where` clause contribution of `search` (query.js:96-102): a truthy
search string constrains title OR content by case-insensitive substring; an
absent or empty (falsy) search imposes no constraint. -/
def matchesSearch (search : Option String) (p : Post) : Bool :=
  match search with
  | none => true
  | some s =>
    if s = "" then true
    else containsInsensitive p.title s || containsInsensitive p.content s

/-- The `where` clause contribution of `filter` (query.js:104-106): a truthy
filter other than "all" constrains `published` to `filter === "published"`. -/
def matchesFilter (filter : Option String) (p : Post) : Bool :=
  match filter with
  | none => true
  | some f =>
    if f = "" then true
    else if f = "all" then true
    else p.published == decide (f = "published")

inductive SortField
  | byCreatedAt
  | byTitle
  | byAuthor
  deriving DecidableEq, Repr

inductive SortDir
  | asc
  | desc
  deriving DecidableEq, Repr

structure SortSpec where
  sf : SortField
  dir : SortDir
  deriving DecidableEq, Repr

def validSortFields : List String := ["createdAt", "title", "author"]

def validSortDirections : List String := ["asc", "desc"]

/-- The field token parsed from the sort parameter:
`const [field, direction] = sort.split(":")` binds `field` to the first
piece. -/
def sortFieldOf (s : String) : String := (jsSplit ':' s).headD ""

/-- The direction token: `direction` is the second piece, `undefined`
(here `none`) when the string has no colon. -/
def sortDirOf (s : String) : Option String := (jsSplit ':' s).get? 1

def sortFieldRecognized (s : String) : Bool := validSortFields.contains (sortFieldOf s)

def sortDirRecognized (s : String) : Bool :=
  match sortDirOf s with
  | some d => validSortDirections.contains d
  | none => false

/-- The `orderBy` clause built by query.js:107-136: an absent or empty
(falsy) sort, or one whose field/direction is not in the allow-lists, falls
back to `createdAt: "desc"`; sorting by `author` uses the author's
`firstName`. -/
def buildOrderBy (sort : Option String) : SortSpec :=
  match sort with
  | none => ⟨SortField.byCreatedAt, SortDir.desc⟩
  | some s =>
    if s = "" then ⟨SortField.byCreatedAt, SortDir.desc⟩
    else if sortFieldRecognized s && sortDirRecognized s then
      let dir := if sortDirOf s = some "asc" then SortDir.asc else SortDir.desc
      if sortFieldOf s = "author" then ⟨SortField.byAuthor, dir⟩
      else if sortFieldOf s = "title" then ⟨SortField.byTitle, dir⟩
      else ⟨SortField.byCreatedAt, dir⟩
    else ⟨SortField.byCreatedAt, SortDir.desc⟩

/-- Lexicographic comparison on char lists (for title/author ordering). -/
def lexLeChars : List Char → List Char → Bool
  | [], _ => true
  | _ :: _, [] => false
  | c :: cs, d :: ds =>
    if c.val < d.val then true
    else if d.val < c.val then false
    else lexLeChars cs ds

def strLe (a b : String) : Bool := lexLeChars a.toList b.toList

/-- The comparison realizing a Prisma `orderBy` clause. -/
def keyLe (spec : SortSpec) (a b : Post) : Bool :=
  match spec.sf, spec.dir with
  | SortField.byCreatedAt, SortDir.asc => decide (a.createdAt ≤ b.createdAt)
  | SortField.byCreatedAt, SortDir.desc => decide (b.createdAt ≤ a.createdAt)
  | SortField.byTitle, SortDir.asc => strLe a.title b.title
  | SortField.byTitle, SortDir.desc => strLe b.title a.title
  | SortField.byAuthor, SortDir.asc => strLe a.authorFirstName b.authorFirstName
  | SortField.byAuthor, SortDir.desc => strLe b.authorFirstName a.authorFirstName

def insertLe (le : Post → Post → Bool) (x : Post) : List Post → List Post
  | [] => [x]
  | y :: t => if le x y then x :: y :: t else y :: insertLe le x t

/-- Insertion sort realizing the database's ordered scan. -/
def sortByLe (le : Post → Post → Bool) : List Post → List Post
  | [] => []
  | x :: t => insertLe le x (sortByLe le t)

def sortPosts (spec : SortSpec) (l : List Post) : List Post := sortByLe (keyLe spec) l

/-- query.js `post.getPaginated(skip, take, search, filter, sort)`:
`findMany` over the dynamic where/orderBy with `skip`/`take`, plus a `count`
over the same `where`. Prisma rejects negative `skip`/`take` arguments. -/
def getPaginated (db : DB) (skip take : Int) (search filter sort : Option String) :
    Except PErr (List Post × Nat) :=
  if skip < 0 || take < 0 then Except.error PErr.invalidArg
  else
    let matched := db.posts.filter (fun p => matchesSearch search p && matchesFilter filter p)
    let sorted := sortPosts (buildOrderBy sort) matched
    Except.ok ((sorted.drop skip.toNat).take take.toNat, matched.length)

/-- query.js `post.getAll`: every post, newest first (used by the admin
all-posts endpoint). -/
def getAllQ (db : DB) : List Post :=
  sortPosts ⟨SortField.byCreatedAt, SortDir.desc⟩ db.posts

/-- query.js `post.getAllPost`: published posts only, newest first (used by
the public GET /api/posts endpoint). -/
def getAllPostQ (db : DB) : List Post :=
  sortPosts ⟨SortField.byCreatedAt, SortDir.desc⟩ (db.posts.filter (fun p => p.published))

/-- query.js `post.create(title, content, published, authorId, tags)`:
inserts a post with fresh uuid, zero counters, `createdAt` defaulting to the
current time (passed in as `now`); `authorFirstName` is the connected
author's name, carried for the `author` sort. -/
def createPostQ (db : DB) (title content : String) (published : Bool)
    (authorId authorFirstName : String) (tags : List String) (now : Int) : Post × DB :=
  let p : Post :=
    { id := "post-" ++ toString db.nextPostId, title := title, content := content,
      published := published, authorId := authorId, authorFirstName := authorFirstName,
      tags := tags, views := 0, likes := 0, createdAt := now }
  (p, { db with posts := db.posts ++ [p], nextPostId := db.nextPostId + 1 })

/-! ### CacheKeyScheme

JavaScript call semantics are modelled explicitly: `JsVal.undef` is an absent
query parameter (`undefined`), default parameter values replace `undefined`
arguments position by position, template literals stringify their values, and
arguments beyond a function's declared parameters are dropped. -/

inductive JsVal
  | undef
  | str (s : String)
  | num (n : Int)
  deriving DecidableEq, Repr

def jsTemplate : JsVal → String
  | JsVal.undef => "undefined"
  | JsVal.str s => s
  | JsVal.num n => toString n

def orDefault (v d : JsVal) : JsVal :=
  match v with
  | JsVal.undef => d
  | _ => v

/-- cache.js `CACHE_KEYS.BLOG_POSTS_LIST(filter = "all", sort = "date",
page = 1, limit = 10)`. -/
def BLOG_POSTS_LIST (filter sort page limit : JsVal) : String :=
  "blog_posts_list:" ++ jsTemplate (orDefault filter (JsVal.str "all")) ++ ":" ++
    jsTemplate (orDefault sort (JsVal.str "date")) ++ ":" ++
    jsTemplate (orDefault page (JsVal.num 1)) ++ ":" ++
    jsTemplate (orDefault limit (JsVal.num 10))

def ALL_BLOG_POSTS : String := "all_blog_posts"

def BLOG_POST_DETAIL (postId : String) : String := "blog_post_detail:" ++ postId

def POST_COMMENTS (postId : String) : String := "post_comments:" ++ postId

/-- The key built at controller.js:336-342: `CACHE_KEYS.BLOG_POSTS_LIST(
search, filter, sort, pageNum, limitNum)` — five arguments to the
four-parameter builder, so JavaScript binds `filter := search`,
`sort := filter`, `page := sort`, `limit := pageNum` and drops `limitNum`. -/
def getBlogPostsCacheKey (search filter sort : JsVal) (pageNum limitNum : Int) : String :=
  BLOG_POSTS_LIST search filter sort (JsVal.num pageNum)

/-- JavaScript `parseInt(x) || d`: `NaN` (absent or non-numeric input,
here `none`) and `0` are falsy and give the default; any other integer,
including a negative one, is kept. -/
def parseIntOr (v : Option Int) (d : Int) : Int :=
  match v with
  | none => d
  | some n => if n = 0 then d else n

/-- The pagination numbers computed by controller.js:331-333. -/
structure ListParams where
  pageNum : Int
  limitNum : Int
  skip : Int
  deriving DecidableEq, Repr

def getBlogPostsParams (page limit : Option Int) : ListParams :=
  let p := parseIntOr page 1
  let l := parseIntOr limit 10
  ⟨p, l, (p - 1) * l⟩

/-! ### CacheStore and controllers

The cache is an association list keyed by the strings above; `set`
overwrites, `del` removes. TTL expiry plays no role in the claims settled
here and is not modelled. `CacheEnv.delThrows` injects the §7 failure mode
in which a `cache.del` call throws. -/

inductive CVal
  | postsList (l : List Post)
  | postDetail (p : Post)
  deriving DecidableEq, Repr

abbrev Cache : Type := List (String × CVal)

def cacheGet : Cache → String → Option CVal
  | [], _ => none
  | e :: t, k => if e.1 == k then some e.2 else cacheGet t k

def cacheDel : Cache → String → Cache
  | [], _ => []
  | e :: t, k => if e.1 == k then cacheDel t k else e :: cacheDel t k

def cacheSet (c : Cache) (k : String) (v : CVal) : Cache :=
  (k, v) :: cacheDel c k

structure SysState where
  db : DB
  cache : Cache
  deriving DecidableEq

structure CacheEnv where
  delThrows : Bool
  deriving DecidableEq, Repr

inductive Resp
  | okPostsList (l : List Post)
  | okCachedVal (v : CVal)
  | okLike (likes : Int) (liked : Bool)
  | okView
  | createdPost (p : Post)
  | notFound
  | serverError (msg : String)
  deriving DecidableEq, Repr

/-- The controller's response mapping for `likePost`: a successful toggle
yields 200 with `{likes, liked}`; an error whose message contains "Record to
update not found" yields 404; every other thrown error yields the generic
500. -/
def likeRespOf : TRes → Resp
  | TRes.ok likes liked => Resp.okLike likes liked
  | TRes.err PErr.updateNotFound => Resp.notFound
  | TRes.err _ => Resp.serverError "Failed to toggle like status."

/-- The revised controller's `likePost` (part_007:586-622): toggle, then
`cache.del(CACHE_KEYS.BLOG_POST_DETAIL(postId))`, then respond. All of it
sits in one `try`; a throw from `cache.del` is caught by the same generic
`catch` and becomes the 500 response, after the storage write already
happened. -/
def likePost (env : CacheEnv) (st : SysState) (postId userId : String) : Resp × SysState :=
  match toggleLike st.db postId userId with
  | (TRes.err e, db1) => (likeRespOf (TRes.err e), ⟨db1, st.cache⟩)
  | (TRes.ok likes liked, db1) =>
    if env.delThrows then
      (Resp.serverError "Failed to toggle like status.", ⟨db1, st.cache⟩)
    else
      (likeRespOf (TRes.ok likes liked), ⟨db1, cacheDel st.cache (BLOG_POST_DETAIL postId)⟩)

/-- The revised controller's `registerView` (part_007:556-578):
`incrementViews`, then purge only that post's detail cache, then 200. -/
def registerView (env : CacheEnv) (st : SysState) (postId : String) : Resp × SysState :=
  match incrementViews st.db postId with
  | Except.error PErr.updateNotFound => (Resp.notFound, st)
  | Except.error _ => (Resp.serverError "Failed to register view.", st)
  | Except.ok (_, db1) =>
    if env.delThrows then
      (Resp.serverError "Failed to register view.", ⟨db1, st.cache⟩)
    else
      (Resp.okView, ⟨db1, cacheDel st.cache (BLOG_POST_DETAIL postId)⟩)

/-- The revised controller's `createBlogPost` (part_007:279-322): create the
post, then `cache.del(CACHE_KEYS.ALL_BLOG_POSTS())` — no other cache key is
touched — then 201. -/
def createBlogPost (env : CacheEnv) (st : SysState) (title content : String)
    (published : Bool) (authorId authorFirstName : String) (tags : List String)
    (now : Int) : Resp × SysState :=
  let pd := createPostQ st.db title content published authorId authorFirstName tags now
  if env.delThrows then
    (Resp.serverError "Failed to create blog post.", ⟨pd.2, st.cache⟩)
  else
    (Resp.createdPost pd.1, ⟨pd.2, cacheDel st.cache ALL_BLOG_POSTS⟩)

/-- The public GET /api/posts handler `getAllPost` (part_007:347-369): serve
the `all_blog_posts` cache entry if present, else fetch the published posts,
cache them under that key, and return them. -/
def getAllPostC (st : SysState) : Resp × SysState :=
  match cacheGet st.cache ALL_BLOG_POSTS with
  | some v => (Resp.okCachedVal v, st)
  | none =>
    let l := getAllPostQ st.db
    (Resp.okPostsList l, ⟨st.db, cacheSet st.cache ALL_BLOG_POSTS (CVal.postsList l)⟩)

/-- The admin GET /api/admin/all-posts handler `getAllBlogPosts`
(part_007:324-346): same cache key `all_blog_posts`, but backed by
`query.post.getAll`, which does not filter on `published`. -/
def getAllBlogPostsC (st : SysState) : Resp × SysState :=
  match cacheGet st.cache ALL_BLOG_POSTS with
  | some v => (Resp.okCachedVal v, st)
  | none =>
    let l := getAllQ st.db
    (Resp.okPostsList l, ⟨st.db, cacheSet st.cache ALL_BLOG_POSTS (CVal.postsList l)⟩)

/-! ### Sequential iteration of toggleLike (for the toggle-parity property) -/

/-- Database state after `n` sequential `toggleLike(postId, userId)` calls. -/
def toggleStates (db : DB) (postId userId : String) : Nat → DB
  | 0 => db
  | n + 1 => (toggleLike (toggleStates db postId userId n) postId userId).2

/-- Result of call number `n + 1` in the sequence. -/
def toggleResAt (db : DB) (postId userId : String) (n : Nat) : TRes :=
  (toggleLike (toggleStates db postId userId n) postId userId).1

/-- Well-formedness: live like-row ids were generated by the freshness
counter, so they are all below it (true of uuid-keyed rows). -/
def LikeIdsFresh (db : DB) : Prop := ∀ r ∈ db.likeRows, r.id < db.nextRowId

/-- Invariant after `k` sequential toggles by a pair that started unliked:
even `k` restores the original rows and counters; odd `k` adds exactly one
like-row for the pair (with an id fresh over the original rows) and bumps the
post's `likes` by one. -/
def SeqInv (db0 : DB) (postId userId : String) (k : Nat) (db : DB) : Prop :=
  LikeIdsFresh db ∧
  (if k % 2 = 0 then db.posts = db0.posts ∧ db.likeRows = db0.likeRows
   else ∃ rid,
     db.likeRows = db0.likeRows ++ [⟨rid, userId, postId⟩] ∧
     (∀ r ∈ db0.likeRows, r.id ≠ rid) ∧
     db.posts = bumpLikes db0.posts postId 1)

/-! ### Concrete states used by the counterexamples and witnesses -/

def racePost : Post :=
  { id := "p1", title := "t", content := "c", published := true, authorId := "a1",
    authorFirstName := "Ann", tags := [], views := 0, likes := 0, createdAt := 0 }

def raceDB : DB := { posts := [racePost], likeRows := [], nextRowId := 0, nextPostId := 0 }

/-- Two concurrent `toggleLike("p1", "u1")` requests, both before their
existence check, against a post nobody has liked. -/
def raceState : TwoState :=
  { a := { postId := "p1", userId := "u1", pc := TPC.atFind },
    b := { postId := "p1", userId := "u1", pc := TPC.atFind },
    db := raceDB }

def listKeyExample : String :=
  BLOG_POSTS_LIST (JsVal.str "all") (JsVal.str "date") (JsVal.num 1) (JsVal.num 10)

/-- A cache holding one post-list entry and one all-posts entry. -/
def c5State : SysState :=
  { db := { posts := [], likeRows := [], nextRowId := 0, nextPostId := 0 },
    cache := [(listKeyExample, CVal.postsList []), (ALL_BLOG_POSTS, CVal.postsList [])] }

def c7State : SysState := { db := raceDB, cache := [] }

def pubPost : Post :=
  { id := "p1", title := "t1", content := "c1", published := true, authorId := "a1",
    authorFirstName := "Ann", tags := [], views := 0, likes := 0, createdAt := 5 }

def unpubPost : Post :=
  { id := "p2", title := "t2", content := "c2", published := false, authorId := "a1",
    authorFirstName := "Ann", tags := [], views := 0, likes := 0, createdAt := 9 }

def c10State : SysState :=
  { db := { posts := [pubPost, unpubPost], likeRows := [], nextRowId := 0, nextPostId := 0 },
    cache := [] }

def witnessDB : DB :=
  { posts := [pubPost, unpubPost], likeRows := [], nextRowId := 0, nextPostId := 0 }

def witnessState : SysState := { db := witnessDB, cache := [] }

/-! ### Helper lemmas -/

theorem cacheGet_cacheDel (c : Cache) (k : String) :
    ∀ k', cacheGet (cacheDel c k) k' = if k' = k then none else cacheGet c k' := by
  induction c with
  | nil =>
    intro k'
    by_cases h : k' = k <;> simp [cacheGet, cacheDel, h]
  | cons e t ih =>
    intro k'
    by_cases h1 : e.1 = k <;> by_cases h2 : k' = k
    · simp [cacheDel, cacheGet, h1, h2, ih k, ih k']
    · have h3 : ¬ e.1 = k' := fun hh => h2 (by rw [← hh, h1])
      have h4 : ¬ k = k' := fun hh => h2 hh.symm
      simp [cacheDel, cacheGet, h1, h2, h3, h4, ih k']
    · have h3 : ¬ e.1 = k' := by rw [h2]; exact h1
      simp [cacheDel, cacheGet, h1, h2, h3, ih k, ih k']
    · by_cases h3 : e.1 = k'
      · simp [cacheDel, cacheGet, h1, h2, h3]
      · simp [cacheDel, cacheGet, h1, h2, h3, ih k']

theorem cacheGet_cacheSet (c : Cache) (k k' : String) (v : CVal) :
    cacheGet (cacheSet c k v) k' = if k' = k then some v else cacheGet c k' := by
  by_cases h : k' = k
  · simp [cacheSet, cacheGet, h]
  · have hb : ¬ k = k' := fun hh => h hh.symm
    simp [cacheSet, cacheGet, hb, h, cacheGet_cacheDel c k k']

theorem mem_insertLe (le : Post → Post → Bool) (x a : Post) (l : List Post) :
    a ∈ insertLe le x l ↔ a = x ∨ a ∈ l := by
  induction l with
  | nil => simp [insertLe]
  | cons y t ih =>
    by_cases h : le x y = true
    · simp [insertLe, h]
    · simp [insertLe, h, ih]
      tauto

theorem mem_sortByLe (le : Post → Post → Bool) (a : Post) (l : List Post) :
    a ∈ sortByLe le l ↔ a ∈ l := by
  induction l with
  | nil => simp [sortByLe]
  | cons y t ih => simp [sortByLe, mem_insertLe, ih]

theorem pairwise_insertLe (le : Post → Post → Bool)
    (htr : ∀ a b c, le a b = true → le b c = true → le a c = true)
    (hto : ∀ a b, le a b = true ∨ le b a = true)
    (x : Post) (l : List Post) (h : l.Pairwise (fun a b => le a b = true)) :
    (insertLe le x l).Pairwise (fun a b => le a b = true) := by
  induction l with
  | nil => simp [insertLe]
  | cons y t ih =>
    rcases List.pairwise_cons.1 h with ⟨hy, ht⟩
    by_cases hxy : le x y = true
    · rw [insertLe, if_pos hxy]
      refine List.pairwise_cons.2 ⟨?_, h⟩
      intro b hb
      rcases List.mem_cons.1 hb with rfl | hb
      · exact hxy
      · exact htr x y b hxy (hy b hb)
    · rw [insertLe, if_neg hxy]
      refine List.pairwise_cons.2 ⟨?_, ih ht⟩
      intro b hb
      rcases (mem_insertLe le x b t).1 hb with heq | hb
      · rcases hto x y with h' | h'
        · exact absurd h' hxy
        · rw [heq]; exact h'
      · exact hy b hb

theorem pairwise_sortByLe (le : Post → Post → Bool)
    (htr : ∀ a b c, le a b = true → le b c = true → le a c = true)
    (hto : ∀ a b, le a b = true ∨ le b a = true)
    (l : List Post) :
    (sortByLe le l).Pairwise (fun a b => le a b = true) := by
  induction l with
  | nil => simp [sortByLe]
  | cons y t ih => exact pairwise_insertLe le htr hto y (sortByLe le t) ih

theorem find?_bumpLikes (posts : List Post) (pid : String) (d : Int) :
    List.find? (fun p => p.id == pid) (bumpLikes posts pid d)
      = Option.map (fun q => { q with likes := q.likes + d })
          (List.find? (fun p => p.id == pid) posts) := by
  induction posts with
  | nil => rfl
  | cons h t ih =>
    by_cases hc : h.id = pid
    · simp [bumpLikes, List.find?_cons, hc]
    · simp only [bumpLikes, List.map_cons] at ih ⊢
      rw [if_neg (by simp [hc])]
      rw [List.find?_cons_of_neg _ (by simp [hc]), List.find?_cons_of_neg _ (by simp [hc])]
      exact ih

theorem bumpLikes_bumpLikes (posts : List Post) (pid : String) (a b : Int) :
    bumpLikes (bumpLikes posts pid a) pid b = bumpLikes posts pid (a + b) := by
  induction posts with
  | nil => rfl
  | cons h t ih =>
    unfold bumpLikes at ih ⊢
    rw [List.map_cons, List.map_cons, List.map_cons]
    rw [show (List.map _ (List.map _ t) = _) from ih]
    congr 1
    by_cases hc : h.id = pid
    · simp [hc, Int.add_assoc]
    · simp [hc]

theorem bumpLikes_zero (posts : List Post) (pid : String) :
    bumpLikes posts pid 0 = posts := by
  induction posts with
  | nil => rfl
  | cons h t ih =>
    simp only [bumpLikes, List.map_cons] at ih ⊢
    have hhead : (if (h.id == pid) = true then { h with likes := h.likes + 0 } else h) = h := by
      by_cases hc : (h.id == pid) = true
      · rw [if_pos hc]
        cases h
        simp
      · rw [if_neg hc]
    rw [ih, hhead]

theorem toggleLike_from_unliked (db : DB) (postId userId : String) (q : Post)
    (hnl : findLike db userId postId = none)
    (hq : getPost db postId = some q) :
    toggleLike db postId userId =
      (TRes.ok (q.likes + 1) true,
       { posts := bumpLikes db.posts postId 1,
         likeRows := db.likeRows ++ [⟨db.nextRowId, userId, postId⟩],
         nextRowId := db.nextRowId + 1,
         nextPostId := db.nextPostId }) := by
  have hcr : createLike db userId postId =
      Except.ok { db with
        likeRows := db.likeRows ++ [⟨db.nextRowId, userId, postId⟩],
        nextRowId := db.nextRowId + 1 } := by
    unfold createLike
    rw [hnl]
    rfl
  have hup : updatePostLikes
      { db with
        likeRows := db.likeRows ++ [⟨db.nextRowId, userId, postId⟩],
        nextRowId := db.nextRowId + 1 } postId 1 =
      Except.ok ({ q with likes := q.likes + 1 },
        { posts := bumpLikes db.posts postId 1,
          likeRows := db.likeRows ++ [⟨db.nextRowId, userId, postId⟩],
          nextRowId := db.nextRowId + 1,
          nextPostId := db.nextPostId }) := by
    unfold updatePostLikes
    rw [show getPost { db with
        likeRows := db.likeRows ++ [⟨db.nextRowId, userId, postId⟩],
        nextRowId := db.nextRowId + 1 } postId = some q from hq]
  unfold toggleLike
  simp only [hnl, hcr, hup]

theorem toggleLike_from_liked (db : DB) (postId userId : String) (q : Post)
    (rows0 : List LikeRow) (rid : Nat)
    (hrows : db.likeRows = rows0 ++ [⟨rid, userId, postId⟩])
    (hnl0 : List.find? (fun r => r.userId == userId && r.postId == postId) rows0 = none)
    (hfresh : ∀ r ∈ rows0, r.id ≠ rid)
    (hq : getPost db postId = some q) :
    toggleLike db postId userId =
      (TRes.ok (q.likes + (-1)) false,
       { posts := bumpLikes db.posts postId (-1),
         likeRows := rows0,
         nextRowId := db.nextRowId,
         nextPostId := db.nextPostId }) := by
  have hfind : findLike db userId postId = some ⟨rid, userId, postId⟩ := by
    unfold findLike
    rw [hrows, List.find?_append, hnl0]
    simp
  have hdel : deleteLikeById db rid = Except.ok { db with likeRows := rows0 } := by
    unfold deleteLikeById
    have hany : (db.likeRows.any (fun r => r.id == rid)) = true := by
      rw [hrows]
      simp
    rw [if_pos hany]
    have hfilter : db.likeRows.filter (fun r => r.id != rid) = rows0 := by
      rw [hrows, List.filter_append]
      have h1 : rows0.filter (fun r => r.id != rid) = rows0 :=
        List.filter_eq_self.2 (fun r hr => by simp [hfresh r hr])
      have h2 : List.filter (fun r => r.id != rid) [LikeRow.mk rid userId postId] = [] := by
        simp
      rw [h1, h2, List.append_nil]
    rw [hfilter]
  have hup : updatePostLikes { db with likeRows := rows0 } postId (-1) =
      Except.ok ({ q with likes := q.likes + (-1) },
        { posts := bumpLikes db.posts postId (-1),
          likeRows := rows0,
          nextRowId := db.nextRowId,
          nextPostId := db.nextPostId }) := by
    unfold updatePostLikes
    rw [show getPost { db with likeRows := rows0 } postId = some q from hq]
  unfold toggleLike
  simp only [hfind, hdel, hup]

/-- The sequential invariant holds after every number of toggles. -/
theorem seqInv_all (db0 : DB) (postId userId : String) (q0 : Post)
    (hq : getPost db0 postId = some q0)
    (hnl : findLike db0 userId postId = none)
    (hwf : LikeIdsFresh db0) :
    ∀ k, SeqInv db0 postId userId k (toggleStates db0 postId userId k) := by
  intro k
  induction k with
  | zero =>
    refine ⟨hwf, ?_⟩
    rw [if_pos (by omega : 0 % 2 = 0)]
    exact ⟨rfl, rfl⟩
  | succ k ih =>
    obtain ⟨ihfresh, ihcase⟩ := ih
    by_cases hk : k % 2 = 0
    · -- even state: this call likes the post
      rw [if_pos hk] at ihcase
      obtain ⟨hposts, hrows⟩ := ihcase
      have hfind : findLike (toggleStates db0 postId userId k) userId postId = none := by
        unfold findLike at hnl ⊢
        rw [hrows]
        exact hnl
      have hget : getPost (toggleStates db0 postId userId k) postId = some q0 := by
        unfold getPost at hq ⊢
        rw [hposts]
        exact hq
      have hstep := toggleLike_from_unliked (toggleStates db0 postId userId k)
        postId userId q0 hfind hget
      have hnext : toggleStates db0 postId userId (k + 1) =
          { posts := bumpLikes (toggleStates db0 postId userId k).posts postId 1,
            likeRows := (toggleStates db0 postId userId k).likeRows ++
              [⟨(toggleStates db0 postId userId k).nextRowId, userId, postId⟩],
            nextRowId := (toggleStates db0 postId userId k).nextRowId + 1,
            nextPostId := (toggleStates db0 postId userId k).nextPostId } := by
        rw [show toggleStates db0 postId userId (k + 1)
            = (toggleLike (toggleStates db0 postId userId k) postId userId).2 from rfl, hstep]
      constructor
      · intro r hr
        rw [hnext] at hr ⊢
        dsimp only at hr ⊢
        simp only [List.mem_append, List.mem_singleton] at hr
        rcases hr with hr | hr
        · have := ihfresh r hr
          omega
        · rw [hr]
          dsimp only
          omega
      · rw [if_neg (by omega : ¬ (k + 1) % 2 = 0)]
        refine ⟨(toggleStates db0 postId userId k).nextRowId, ?_, ?_, ?_⟩
        · rw [hnext, ← hrows]
        · intro r hr
          have := ihfresh r (by rw [hrows]; exact hr)
          omega
        · rw [hnext, hposts]
    · -- odd state: this call unlikes the post
      rw [if_neg hk] at ihcase
      obtain ⟨rid, hrows, hfresh0, hposts⟩ := ihcase
      have hnl0 : List.find? (fun r => r.userId == userId && r.postId == postId)
          db0.likeRows = none := hnl
      have hget : getPost (toggleStates db0 postId userId k) postId
          = some { q0 with likes := q0.likes + 1 } := by
        unfold getPost
        rw [hposts, find?_bumpLikes]
        unfold getPost at hq
        rw [hq]
        rfl
      have hstep := toggleLike_from_liked (toggleStates db0 postId userId k)
        postId userId { q0 with likes := q0.likes + 1 } db0.likeRows rid hrows hnl0 hfresh0 hget
      have hnext : toggleStates db0 postId userId (k + 1) =
          { posts := bumpLikes (toggleStates db0 postId userId k).posts postId (-1),
            likeRows := db0.likeRows,
            nextRowId := (toggleStates db0 postId userId k).nextRowId,
            nextPostId := (toggleStates db0 postId userId k).nextPostId } := by
        rw [show toggleStates db0 postId userId (k + 1)
            = (toggleLike (toggleStates db0 postId userId k) postId userId).2 from rfl, hstep]
      constructor
      · intro r hr
        rw [hnext] at hr ⊢
        dsimp only at hr ⊢
        exact ihfresh r (by rw [hrows]; exact List.mem_append_left _ hr)
      · rw [if_pos (by omega : (k + 1) % 2 = 0)]
        constructor
        · rw [hnext]
          dsimp only
          rw [hposts, bumpLikes_bumpLikes, show (1 + (-1) : Int) = 0 by decide, bumpLikes_zero]
        · rw [hnext]

/-- Result of call `k + 1` in a sequence of toggles started by an unliking
pair: calls from even states like (`+1`, `liked = true`), calls from odd
states unlike and report the original count. -/
theorem toggleResAt_parity (db0 : DB) (postId userId : String) (q0 : Post)
    (hq : getPost db0 postId = some q0)
    (hnl : findLike db0 userId postId = none)
    (hwf : LikeIdsFresh db0) (k : Nat) :
    toggleResAt db0 postId userId k =
      (if k % 2 = 0 then TRes.ok (q0.likes + 1) true else TRes.ok q0.likes false) := by
  obtain ⟨ihfresh, ihcase⟩ := seqInv_all db0 postId userId q0 hq hnl hwf k
  by_cases hk : k % 2 = 0
  · rw [if_pos hk] at ihcase ⊢
    obtain ⟨hposts, hrows⟩ := ihcase
    have hfind : findLike (toggleStates db0 postId userId k) userId postId = none := by
      unfold findLike at hnl ⊢
      rw [hrows]
      exact hnl
    have hget : getPost (toggleStates db0 postId userId k) postId = some q0 := by
      unfold getPost at hq ⊢
      rw [hposts]
      exact hq
    have hstep := toggleLike_from_unliked (toggleStates db0 postId userId k)
      postId userId q0 hfind hget
    unfold toggleResAt
    rw [hstep]
  · rw [if_neg hk] at ihcase ⊢
    obtain ⟨rid, hrows, hfresh0, hposts⟩ := ihcase
    have hget : getPost (toggleStates db0 postId userId k) postId
        = some { q0 with likes := q0.likes + 1 } := by
      unfold getPost
      rw [hposts, find?_bumpLikes]
      unfold getPost at hq
      rw [hq]
      rfl
    have hstep := toggleLike_from_liked (toggleStates db0 postId userId k)
      postId userId { q0 with likes := q0.likes + 1 } db0.likeRows rid hrows hnl hfresh0 hget
    unfold toggleResAt
    rw [hstep]
    dsimp only
    congr 1
    omega

/-- The post's stored state after `k` sequential toggles. -/
theorem getPost_toggleStates (db0 : DB) (postId userId : String) (q0 : Post)
    (hq : getPost db0 postId = some q0)
    (hnl : findLike db0 userId postId = none)
    (hwf : LikeIdsFresh db0) (k : Nat) :
    getPost (toggleStates db0 postId userId k) postId
      = some (if k % 2 = 0 then q0 else { q0 with likes := q0.likes + 1 }) := by
  obtain ⟨-, ihcase⟩ := seqInv_all db0 postId userId q0 hq hnl hwf k
  by_cases hk : k % 2 = 0
  · rw [if_pos hk] at ihcase ⊢
    obtain ⟨hposts, -⟩ := ihcase
    unfold getPost at hq ⊢
    rw [hposts]
    exact hq
  · rw [if_neg hk] at ihcase ⊢
    obtain ⟨rid, -, -, hposts⟩ := ihcase
    unfold getPost
    rw [hposts, find?_bumpLikes]
    unfold getPost at hq
    rw [hq]
    rfl

/-! ### Claim theorems -/

/-- C1: claimed — a toggleLike call that loses the concurrent race and hits
the uniqueness-constraint violation resolves without a user-visible error,
reporting the winner's state. The code does the opposite: under the schedule
in which both requests pass the existence check before either inserts, the
loser's `create` throws P2002, query.js re-throws it, and the controller's
`catch` answers with the 500 "Failed to toggle like status." response. The
winner increments once, so `likes` ends at 1 (no double increment). -/
theorem C1_race_loser_gets_server_error :
    (run2 [true, false, true, false, true] raceState).a.pc = TPC.done (TRes.ok 1 true) ∧
    (run2 [true, false, true, false, true] raceState).b.pc
      = TPC.done (TRes.err PErr.uniqueViolation) ∧
    likeRespOf (TRes.err PErr.uniqueViolation)
      = Resp.serverError "Failed to toggle like status." ∧
    ((run2 [true, false, true, false, true] raceState).db.posts.map Post.likes) = [1] := by
  decide

/-- C2: claimed — after every successfully completed toggle the invariant
`Post.likes = count(LikeRelation)` holds and `likes` never goes below zero.
Counterexample schedule: request A passes its existence check and inserts the
like-row; request B then runs its existence check, sees A's row, deletes it
and decrements — B completes successfully reporting `likes = -1`, while the
post stores `likes = -1` and zero like-rows exist. -/
theorem C2_likes_negative_under_race :
    (run2 [true, true, false, false, false] raceState).b.pc
      = TPC.done (TRes.ok (-1) false) ∧
    ((run2 [true, true, false, false, false] raceState).db.posts.map Post.likes) = [-1] ∧
    ((run2 [true, true, false, false, false] raceState).db.likeRows.filter
      (fun r => r.postId == "p1")).length = 0 := by
  decide

/-- C3: for a pair that has not liked the post, `N ≥ 1` sequential toggles
end with `liked = (N is odd)` on the final call, the stored `likes` changes
by `+1` when the final state is liked and by `0` otherwise, and `likes` is
never negative at any point of the sequence. -/
theorem C3_sequential_toggle_parity (db0 : DB) (postId userId : String) (q0 : Post) (N : Nat)
    (hN : 1 ≤ N)
    (hq : getPost db0 postId = some q0)
    (hnl : findLike db0 userId postId = none)
    (hpos : 0 ≤ q0.likes)
    (hwf : LikeIdsFresh db0) :
    toggleResAt db0 postId userId (N - 1)
        = TRes.ok (if N % 2 = 1 then q0.likes + 1 else q0.likes) (decide (N % 2 = 1)) ∧
      (∃ q, getPost (toggleStates db0 postId userId N) postId = some q ∧
        q.likes = q0.likes + (if N % 2 = 1 then 1 else 0)) ∧
      ∀ k, k ≤ N → ∃ q, getPost (toggleStates db0 postId userId k) postId = some q ∧
        0 ≤ q.likes := by
  refine ⟨?_, ?_, ?_⟩
  · rw [toggleResAt_parity db0 postId userId q0 hq hnl hwf (N - 1)]
    by_cases h : N % 2 = 1
    · rw [if_pos (by omega : (N - 1) % 2 = 0), if_pos h]
      simp [h]
    · rw [if_neg (by omega : ¬ (N - 1) % 2 = 0), if_neg h]
      simp [h]
  · rw [getPost_toggleStates db0 postId userId q0 hq hnl hwf N]
    by_cases h : N % 2 = 1
    · rw [if_neg (by omega : ¬ N % 2 = 0), if_pos h]
      exact ⟨_, rfl, rfl⟩
    · rw [if_pos (by omega : N % 2 = 0), if_neg h]
      exact ⟨_, rfl, by omega⟩
  · intro k hk
    rw [getPost_toggleStates db0 postId userId q0 hq hnl hwf k]
    by_cases h : k % 2 = 0
    · rw [if_pos h]
      exact ⟨_, rfl, hpos⟩
    · rw [if_neg h]
      exact ⟨_, rfl, by dsimp only; omega⟩

/-- C3 witness: three sequential toggles of the fresh pair ("u1", "p1"). -/
theorem C3_sequential_toggle_parity_witness :
    toggleResAt raceDB "p1" "u1" (3 - 1)
        = TRes.ok (if 3 % 2 = 1 then racePost.likes + 1 else racePost.likes)
            (decide (3 % 2 = 1)) ∧
      (∃ q, getPost (toggleStates raceDB "p1" "u1" 3) "p1" = some q ∧
        q.likes = racePost.likes + (if 3 % 2 = 1 then 1 else 0)) ∧
      ∀ k, k ≤ 3 → ∃ q, getPost (toggleStates raceDB "p1" "u1" k) "p1" = some q ∧
        0 ≤ q.likes :=
  C3_sequential_toggle_parity raceDB "p1" "u1" racePost 3 (by decide) rfl rfl (by decide)
    (fun r hr => absurd hr (List.not_mem_nil r))

/-- C4: claimed — the cache key builders are collision-free across distinct
parameter tuples, in particular the post-list key as built by getBlogPosts
from (search, filter, sort, page, limit). The call site passes five
arguments to the four-parameter `BLOG_POSTS_LIST` builder, so the arguments
shift one position and `limitNum` is dropped: two requests that differ only
in `limit` (10 versus 20) produce the identical key string. -/
theorem C4_cache_key_drops_limit :
    getBlogPostsCacheKey (JsVal.str "intro") (JsVal.str "published")
        (JsVal.str "createdAt:desc") 1 10
      = getBlogPostsCacheKey (JsVal.str "intro") (JsVal.str "published")
        (JsVal.str "createdAt:desc") 1 20 ∧
    getBlogPostsCacheKey (JsVal.str "intro") (JsVal.str "published")
        (JsVal.str "createdAt:desc") 1 10
      = "blog_posts_list:intro:published:createdAt:desc:1" ∧
    (10 : Int) ≠ 20 := by
  decide

/-- C5 counterexample: the claim says creating a post purges every
`postList:*` ( `blog_posts_list:*` ) entry; but `createBlogPost` only deletes
`all_blog_posts`, and a live post-list entry survives the creation. -/
theorem C5_counterexample_postList_key_survives :
    isPrefixChars "blog_posts_list:".toList listKeyExample.toList = true ∧
    cacheGet ((createBlogPost ⟨false⟩ c5State "t" "c" true "a1" "Ann" [] 0).2).cache
        listKeyExample = some (CVal.postsList []) := by
  decide

/-- C5 amended: creating a post purges exactly the `allPosts()` cache entry
(every other key, the `postList:*` keys included, is left unchanged), and a
subsequent public all-posts request misses, refetches, and includes the
newly created (published) post. -/
theorem C5_create_purges_only_allPosts (st : SysState) (title content : String)
    (authorId authorFirst : String) (tags : List String) (now : Int) :
    cacheGet (createBlogPost ⟨false⟩ st title content true authorId authorFirst tags now).2.cache
        ALL_BLOG_POSTS = none ∧
    (∀ k, k ≠ ALL_BLOG_POSTS →
      cacheGet (createBlogPost ⟨false⟩ st title content true authorId authorFirst tags
          now).2.cache k
        = cacheGet st.cache k) ∧
    (getAllPostC (createBlogPost ⟨false⟩ st title content true authorId authorFirst tags
        now).2).1
      = Resp.okPostsList (getAllPostQ
          (createBlogPost ⟨false⟩ st title content true authorId authorFirst tags now).2.db) ∧
    (createPostQ st.db title content true authorId authorFirst tags now).1
      ∈ getAllPostQ
          (createBlogPost ⟨false⟩ st title content true authorId authorFirst tags now).2.db := by
  have hc : (createBlogPost ⟨false⟩ st title content true authorId authorFirst tags now).2.cache
      = cacheDel st.cache ALL_BLOG_POSTS := rfl
  have hdb : (createBlogPost ⟨false⟩ st title content true authorId authorFirst tags now).2.db
      = { st.db with
          posts := st.db.posts
            ++ [(createPostQ st.db title content true authorId authorFirst tags now).1],
          nextPostId := st.db.nextPostId + 1 } := rfl
  have h1 : cacheGet (createBlogPost ⟨false⟩ st title content true authorId authorFirst tags
      now).2.cache ALL_BLOG_POSTS = none := by
    rw [hc, cacheGet_cacheDel st.cache ALL_BLOG_POSTS ALL_BLOG_POSTS, if_pos rfl]
  refine ⟨h1, ?_, ?_, ?_⟩
  · intro k hk
    rw [hc, cacheGet_cacheDel st.cache ALL_BLOG_POSTS k, if_neg hk]
  · simp only [getAllPostC, h1]
  · unfold getAllPostQ sortPosts
    rw [mem_sortByLe]
    apply List.mem_filter.2
    refine ⟨?_, rfl⟩
    rw [hdb]
    exact List.mem_append_right _ (List.mem_singleton_self _)

/-- C5 witness: creating a published post against the concrete cached state,
the all-posts entry is purged, the unrelated post-list entry survives
unchanged, and the created post appears in the refetched list. -/
theorem C5_create_purges_only_allPosts_witness :
    cacheGet (createBlogPost ⟨false⟩ c5State "t" "c" true "a1" "Ann" [] 0).2.cache
        ALL_BLOG_POSTS = none ∧
    cacheGet (createBlogPost ⟨false⟩ c5State "t" "c" true "a1" "Ann" [] 0).2.cache
        listKeyExample = cacheGet c5State.cache listKeyExample ∧
    (createPostQ c5State.db "t" "c" true "a1" "Ann" [] 0).1
      ∈ getAllPostQ (createBlogPost ⟨false⟩ c5State "t" "c" true "a1" "Ann" [] 0).2.db := by
  have h := C5_create_purges_only_allPosts c5State "t" "c" "a1" "Ann" [] 0
  exact ⟨h.1, h.2.1 listKeyExample (by decide), h.2.2.2⟩

/-- C6: after a registerView or likePost whose storage write succeeds, the
post's detail cache entry is purged and every other cache entry — the
`postList:*` and `allPosts()` entries included — is left unchanged. -/
theorem C6_engagement_invalidation_frame (st : SysState) (postId userId : String) :
    (∀ p db1, incrementViews st.db postId = Except.ok (p, db1) →
      cacheGet (registerView ⟨false⟩ st postId).2.cache (BLOG_POST_DETAIL postId) = none ∧
      ∀ k, k ≠ BLOG_POST_DETAIL postId →
        cacheGet (registerView ⟨false⟩ st postId).2.cache k = cacheGet st.cache k) ∧
    (∀ likes liked db1, toggleLike st.db postId userId = (TRes.ok likes liked, db1) →
      cacheGet (likePost ⟨false⟩ st postId userId).2.cache (BLOG_POST_DETAIL postId) = none ∧
      ∀ k, k ≠ BLOG_POST_DETAIL postId →
        cacheGet (likePost ⟨false⟩ st postId userId).2.cache k = cacheGet st.cache k) := by
  constructor
  · intro p db1 h
    have hc : (registerView ⟨false⟩ st postId).2.cache
        = cacheDel st.cache (BLOG_POST_DETAIL postId) := by
      simp [registerView, h]
    rw [hc]
    refine ⟨?_, fun k hk => ?_⟩
    · rw [cacheGet_cacheDel st.cache (BLOG_POST_DETAIL postId) (BLOG_POST_DETAIL postId),
        if_pos rfl]
    · rw [cacheGet_cacheDel st.cache (BLOG_POST_DETAIL postId) k, if_neg hk]
  · intro likes liked db1 h
    have hc : (likePost ⟨false⟩ st postId userId).2.cache
        = cacheDel st.cache (BLOG_POST_DETAIL postId) := by
      simp [likePost, h]
    rw [hc]
    refine ⟨?_, fun k hk => ?_⟩
    · rw [cacheGet_cacheDel st.cache (BLOG_POST_DETAIL postId) (BLOG_POST_DETAIL postId),
        if_pos rfl]
    · rw [cacheGet_cacheDel st.cache (BLOG_POST_DETAIL postId) k, if_neg hk]

/-- C6 witness: a concrete view registration and like toggle. -/
theorem C6_engagement_invalidation_frame_witness :
    cacheGet (registerView ⟨false⟩ witnessState "p1").2.cache (BLOG_POST_DETAIL "p1") = none ∧
    cacheGet (likePost ⟨false⟩ witnessState "p1" "u1").2.cache (BLOG_POST_DETAIL "p1") = none :=
  ⟨((C6_engagement_invalidation_frame witnessState "p1" "u1").1 _ _ rfl).1,
   ((C6_engagement_invalidation_frame witnessState "p1" "u1").2 _ _ _ rfl).1⟩

/-- C7 counterexample: the claim says a throwing cache purge is swallowed and
the mutation still answers with its success response. In the code the throw
lands in the same generic `catch`: with the storage write already succeeded
(the toggle returned `ok`), the request answers 500. -/
theorem C7_counterexample_invalidation_throw_fails_request :
    (likePost ⟨true⟩ c7State "p1" "u1").1 = Resp.serverError "Failed to toggle like status." ∧
    (toggleLike c7State.db "p1" "u1").1 = TRes.ok 1 true := by
  decide

/-- C7 amended: when the storage write of likePost succeeds and the
invalidation throws, the controller's catch converts the request into the
500 error response while the storage write persists; only when invalidation
does not throw does the mutation complete with its normal success
response. -/
theorem C7_invalidation_throw_yields_500 (env : CacheEnv) (st : SysState)
    (postId userId : String) (likes : Int) (liked : Bool) (db1 : DB)
    (h : toggleLike st.db postId userId = (TRes.ok likes liked, db1)) :
    (env.delThrows = true →
      likePost env st postId userId
        = (Resp.serverError "Failed to toggle like status.", ⟨db1, st.cache⟩)) ∧
    (env.delThrows = false →
      likePost env st postId userId
        = (Resp.okLike likes liked, ⟨db1, cacheDel st.cache (BLOG_POST_DETAIL postId)⟩)) := by
  constructor
  · intro he
    simp [likePost, h, he]
  · intro he
    simp [likePost, h, he, likeRespOf]

/-- C7 witness: the concrete throwing run. -/
theorem C7_invalidation_throw_yields_500_witness :
    likePost ⟨true⟩ c7State "p1" "u1"
      = (Resp.serverError "Failed to toggle like status.",
         ⟨(toggleLike c7State.db "p1" "u1").2, c7State.cache⟩) :=
  (C7_invalidation_throw_yields_500 ⟨true⟩ c7State "p1" "u1" 1 true _ rfl).1 rfl

/-- C8 counterexample: the claim says page defaults to 1 whenever the
supplied value is absent or non-positive; `parseInt(page) || 1` keeps the
negative value -3, and the skip becomes (-3 - 1) * 10 = -40. -/
theorem C8_counterexample_negative_page_kept :
    (getBlogPostsParams (some (-3)) none).pageNum = -3 ∧
    (getBlogPostsParams (some (-3)) none).pageNum ≠ 1 ∧
    (getBlogPostsParams (some (-3)) none).skip = -40 ∧
    ((-3 : Int) ≤ 0) := by
  decide

/-- C8 amended: `skip = (pageNum - 1) * limitNum` always; page and limit
default to 1 and 10 when the supplied value is absent (or non-numeric, which
parseInt also maps to NaN) or zero, while any nonzero value — negatives
included — is kept; and when the query succeeds, entry `i` of the returned
page is entry `skip + i` of the full filtered-and-sorted listing. -/
theorem C8_pagination_defaults (page limit : Option Int) (db : DB)
    (search filter sort : Option String) :
    (getBlogPostsParams page limit).skip
        = ((getBlogPostsParams page limit).pageNum - 1)
          * (getBlogPostsParams page limit).limitNum ∧
    (getBlogPostsParams none limit).pageNum = 1 ∧
    (getBlogPostsParams (some 0) limit).pageNum = 1 ∧
    (∀ n : Int, n ≠ 0 → (getBlogPostsParams (some n) limit).pageNum = n) ∧
    (getBlogPostsParams page none).limitNum = 10 ∧
    (getBlogPostsParams page (some 0)).limitNum = 10 ∧
    (∀ n : Int, n ≠ 0 → (getBlogPostsParams page (some n)).limitNum = n) ∧
    (∀ items total,
      getPaginated db (getBlogPostsParams page limit).skip
          (getBlogPostsParams page limit).limitNum search filter sort
        = Except.ok (items, total) →
      ∀ i : Nat, i < (getBlogPostsParams page limit).limitNum.toNat →
        items[i]? = (sortPosts (buildOrderBy sort) (db.posts.filter
          (fun p => matchesSearch search p && matchesFilter filter p)))[
            (getBlogPostsParams page limit).skip.toNat + i]?) := by
  refine ⟨rfl, rfl, rfl, fun n hn => ?_, rfl, rfl, fun n hn => ?_, ?_⟩
  · simp [getBlogPostsParams, parseIntOr, hn]
  · simp [getBlogPostsParams, parseIntOr, hn]
  · intro items total h i hi
    simp only [getPaginated] at h
    by_cases hneg : ((getBlogPostsParams page limit).skip < 0
        || (getBlogPostsParams page limit).limitNum < 0) = true
    · rw [if_pos hneg] at h
      exact absurd h (by simp)
    · rw [if_neg hneg] at h
      injection h with h'
      injection h' with h1 h2
      rw [← h1, List.getElem?_take, if_pos hi, List.getElem?_drop]

/-- C8 witness: page 3 with limit 5 against the concrete dataset. -/
theorem C8_pagination_defaults_witness :
    (getBlogPostsParams (some 3) (some 5)).skip
        = ((getBlogPostsParams (some 3) (some 5)).pageNum - 1)
          * (getBlogPostsParams (some 3) (some 5)).limitNum ∧
    (getBlogPostsParams none (some 5)).pageNum = 1 ∧
    (getBlogPostsParams (some 3) (some 5)).pageNum = 3 ∧
    ([] : List Post)[0]? = (sortPosts (buildOrderBy none) (witnessDB.posts.filter
      (fun p => matchesSearch none p && matchesFilter none p)))[
        (getBlogPostsParams (some 3) (some 5)).skip.toNat + 0]? := by
  have h := C8_pagination_defaults (some 3) (some 5) witnessDB none none none
  exact ⟨h.1, h.2.1, h.2.2.2.1 3 (by decide),
    h.2.2.2.2.2.2.2 [] 2 rfl 0 (by decide)⟩

/-- C9: an unrecognized sort field or unrecognized sort direction never
errors and yields exactly the ordering and slicing of the default
`createdAt desc` sort. -/
theorem C9_sort_fallback (db : DB) (skip take : Int) (search filter : Option String)
    (s : String)
    (h : sortFieldRecognized s = false ∨ sortDirRecognized s = false) :
    getPaginated db skip take search filter (some s)
      = getPaginated db skip take search filter (some "createdAt:desc") := by
  have h1 : buildOrderBy (some s) = ⟨SortField.byCreatedAt, SortDir.desc⟩ := by
    by_cases hs : s = ""
    · simp only [buildOrderBy]
      rw [if_pos hs]
    · have hcond : (sortFieldRecognized s && sortDirRecognized s) = false := by
        rcases h with h | h <;> simp [h]
      simp only [buildOrderBy]
      rw [if_neg hs, hcond]
      simp
  have h2 : buildOrderBy (some "createdAt:desc") = ⟨SortField.byCreatedAt, SortDir.desc⟩ := by
    decide
  simp only [getPaginated, h1, h2]

/-- C9 witness: `sortField = "bogus"`, `sortDir = "asc"` on the concrete
dataset behaves exactly like the default sort. -/
theorem C9_sort_fallback_witness :
    getPaginated witnessDB 0 10 none none (some "bogus:asc")
      = getPaginated witnessDB 0 10 none none (some "createdAt:desc") :=
  C9_sort_fallback witnessDB 0 10 none none "bogus:asc" (Or.inl (by decide))

/-- C10 counterexample: the claim says the public GET /api/posts response
never contains an unpublished post. The admin all-posts endpoint caches the
unfiltered `getAll` result under the same `all_blog_posts` key; the public
endpoint then serves that cached value, unpublished post included. -/
theorem C10_counterexample_admin_cache_poisons_public :
    (getAllPostC ((getAllBlogPostsC c10State).2)).1
      = Resp.okCachedVal (CVal.postsList [unpubPost, pubPost]) ∧
    unpubPost.published = false := by
  decide

/-- C10 amended: on a cache miss the public all-posts endpoint returns
exactly the published posts ordered by createdAt descending and stores that
same list under `all_blog_posts`; a cache hit, however, returns whatever is
stored under the shared key, which the admin endpoint may have populated
with unpublished posts. -/
theorem C10_public_allposts_on_miss (st : SysState)
    (h : cacheGet st.cache ALL_BLOG_POSTS = none) :
    (getAllPostC st).1 = Resp.okPostsList (getAllPostQ st.db) ∧
    (∀ p, p ∈ getAllPostQ st.db → p.published = true) ∧
    cacheGet (getAllPostC st).2.cache ALL_BLOG_POSTS
      = some (CVal.postsList (getAllPostQ st.db)) ∧
    (getAllPostQ st.db).Pairwise (fun a b => b.createdAt ≤ a.createdAt) := by
  refine ⟨?_, ?_, ?_, ?_⟩
  · simp only [getAllPostC, h]
  · intro p hp
    unfold getAllPostQ sortPosts at hp
    rw [mem_sortByLe] at hp
    exact (List.mem_filter.1 hp).2
  · have hc : (getAllPostC st).2.cache
        = cacheSet st.cache ALL_BLOG_POSTS (CVal.postsList (getAllPostQ st.db)) := by
      simp only [getAllPostC, h]
    rw [hc, cacheGet_cacheSet, if_pos rfl]
  · unfold getAllPostQ sortPosts
    have hpw := pairwise_sortByLe (keyLe ⟨SortField.byCreatedAt, SortDir.desc⟩)
      (fun a b c hab hbc => by
        simp only [keyLe, decide_eq_true_eq] at hab hbc ⊢
        omega)
      (fun a b => by
        simp only [keyLe, decide_eq_true_eq]
        omega)
      (st.db.posts.filter (fun p => p.published))
    exact hpw.imp (fun hab => by
      simp only [keyLe, decide_eq_true_eq] at hab
      exact hab)

/-- C10 witness: a concrete miss-path fetch. -/
theorem C10_public_allposts_on_miss_witness :
    (getAllPostC witnessState).1 = Resp.okPostsList (getAllPostQ witnessState.db) ∧
    cacheGet (getAllPostC witnessState).2.cache ALL_BLOG_POSTS
      = some (CVal.postsList (getAllPostQ witnessState.db)) :=
  ⟨(C10_public_allposts_on_miss witnessState rfl).1,
   (C10_public_allposts_on_miss witnessState rfl).2.2.1⟩

end BlogApi
